import Mathlib

/-!
Shallow embedding of `src/margarine/parameters.py`: the `Parameters`
shared-state configuration resolver.

Modelling conventions, each justified against the source:

* Python dictionaries are insertion-ordered association lists
  (`List (String × α)`): assigning to an existing key replaces its value in
  place, assigning to a fresh key appends, and iteration follows insertion
  order, exactly as in CPython.
* Python exceptions raised by the embedded code are an explicit `PyError`
  value; fallible operations return `Except PyError _`.
* The Borg pattern (`self.__dict__ = self.__shared_state`) makes every
  `Parameters` instance an alias of one process-wide state, so the embedding
  threads a single explicit `Parameters` state value through every operation.
* `self._configuration_files` maps file paths to what
  `_create_configuration_parser` produced.  That function has no `return`
  statement, and `reinitialize` stores its result
  (`self._configuration_files[file_path] = self._create_configuration_parser(file_path)`),
  so after every registration or reload each value in the dictionary is the
  Python value `None`; moreover `__getitem__` iterates the dictionary itself,
  which yields its *keys* (the path strings), never the values.  Hence the
  values are unobservable and the embedding keeps only the ordered key list.
* The `parsed` attribute does not exist until a strict CLI parse stores
  `self.parsed = True` (line 203); no assignment in the source ever stores a
  falsy value into it.  The embedding therefore models it as an
  `Option Bool`: `none` is the absent attribute (a direct read such as
  line 301's `if not self.parsed:` then raises `AttributeError`), while
  guarded reads (`getattr(self, "parsed", False)`) see `False` for it.
* The argparse surface (`self.argument_parser`, `self.group_parsers`) is an
  external collaborator per the specification; the parse results are
  discarded by `Parameters.parse` and `self.arguments` is never assigned
  anywhere in the source, so the only shared-state effect of CLI parsing is
  creating the `parsed` attribute.  The fixed set of attribute and method names present on
  an `argparse.ArgumentParser` instance (consulted via `hasattr` in
  `__getitem__`) is modelled as the constant list `argparseAttrs`.
* The process environment (`os.environ`) and the program name
  (`sys.argv[0]`) are inputs of the lookup operation.
-/

namespace Margarine

/-- Python exceptions that the embedded code can raise. -/
inductive PyError where
  | keyError (key : String)
  | indexError
  | attributeError
  | assertionError
  deriving DecidableEq, Repr

/-- Python values that `Parameters.__getitem__` can produce: the Python
`None`, a string (from `os.environ`), or the `(default, only)` tuple stored
by `extract_defaults` in `self.defaults`. -/
inductive PyVal where
  | vnone
  | vstr (s : String)
  | vtuple (dflt : String) (only : Option String)
  deriving DecidableEq, Repr

/-- Lookup in an insertion-ordered association list (Python `dict[k]` /
`dict.get(k)`). -/
def lookupA {α : Type} : List (String × α) → String → Option α
  | [], _ => none
  | (k2, v) :: rest, k => if k2 = k then some v else lookupA rest k

/-- Assignment `dict[k] = v` on an insertion-ordered association list:
replace in place if the key is present, append otherwise. -/
def insertA {α : Type} : List (String × α) → String → α → List (String × α)
  | [], k, v => [(k, v)]
  | (k2, v2) :: rest, k, v =>
      if k2 = k then (k, v) :: rest else (k2, v2) :: insertA rest k v

/-- Python `dict.update(other)`: assign every entry of `other`, in order. -/
def updateA {α : Type} (m upd : List (String × α)) : List (String × α) :=
  upd.foldl (fun acc kv => insertA acc kv.1 kv.2) m

/-- Key-set-only view of assignment for the `_configuration_files`
dictionary (its values are unobservable, see the module docstring): add the
key at the end if absent, keep the order otherwise. -/
def insertKeyA (ks : List String) (k : String) : List String :=
  if k ∈ ks then ks else ks ++ [k]

/-- One parameter-definition dictionary as passed by a caller to
`Parameters.__init__` (the `"group"` entry is optional before registration;
`"options"` is the ordered alias list, first entry canonical). -/
structure ParamDefIn where
  group : Option String
  options : List String
  default : Option String
  only : Option String
  help : Option String
  deriving DecidableEq, Repr

/-- One parameter-definition dictionary as stored in `self.parameters`:
registration has run `parameter.setdefault("group", name)`, so the group is
always present. -/
structure ParamDef where
  group : String
  options : List String
  default : Option String
  only : Option String
  help : Option String
  deriving DecidableEq, Repr

/-- Python `item["options"][0][2:]`: the canonical option name, the first
alias with its leading two characters (the dashes) removed.  Every
registered definition carries at least one option string (an empty
`options` list would raise IndexError in the source before reaching any
behaviour modelled here). -/
def canonicalName (options : List String) : String :=
  String.mk ((options.headD "").data.drop 2)

/-- Embedding of `extract_defaults(parameters, prefix)` at its only call
site (`keep` left at its default, which retains every nonempty definition
dictionary): builds `dict((prefix + options[0][2:], (default, only)))` over
the definitions that carry a `"default"` entry, later entries overwriting
earlier ones as in a Python dict comprehension. -/
def extract_defaults (parameters : List ParamDefIn) (pfx : String) :
    List (String × (String × Option String)) :=
  parameters.foldl
    (fun acc item =>
      match item.default with
      | some d => insertA acc (pfx ++ canonicalName item.options) (d, item.only)
      | none => acc)
    []

/-- Python `parameter.setdefault("group", name)` followed by storage into
`self.parameters`. -/
def tagGroup (name : String) (d : ParamDefIn) : ParamDef :=
  { group := d.group.getD name
    options := d.options
    default := d.default
    only := d.only
    help := d.help }

/-- The process-wide shared state of `Parameters` (the Borg
`__shared_state`).  `parsed = none` models the `self.parsed` attribute
being absent — it is created only by a strict CLI parse, which stores
`True`, so `some false` never arises from any operation of the source;
`parameters = none` models the `self.parameters` attribute being absent
(no construction has reached line 148 yet); `configuration_files` is the
ordered key list of the `self._configuration_files` dictionary (values
unobservable, see module docstring). -/
structure Parameters where
  parsed : Option Bool
  defaults : List (String × (String × Option String))
  parameters : Option (List ParamDef)
  configuration_files : List String
  deriving DecidableEq, Repr

/-- The shared state before any construction has run: no attribute set,
`getattr(self, "parsed", False)` yields `False`. -/
def emptyState : Parameters :=
  { parsed := none, defaults := [], parameters := none, configuration_files := [] }

/-- Embedding of `Parameters.reinitialize(file_path)`.  With a path it runs
`_create_configuration_parser`, which assigns a freshly-read parser to
`self._configuration_files[file_path]` and returns `None`, which the caller
then assigns over it — net effect on the observable state: the path joins
the ordered key set.  With `None` it re-reads every currently tracked path,
leaving the key set unchanged. -/
def reinitFiles (st : Parameters) (file_path : Option String) : Parameters :=
  match file_path with
  | some p => { st with configuration_files := insertKeyA st.configuration_files p }
  | none => st

/-- Embedding of `Parameters.parse(components, only_known, file_path)`.
With `"cli"` and `only_known = False` the source sets `self.parsed = True`
and then calls `argument_parser.parse_args()`, discarding the returned
namespace (a strict-parse usage failure is the external collaborator
terminating the process, out of scope per the specification); with
`only_known = True` it calls `parse_known_args()` and changes nothing.
With `"file"` it calls `reinitialize`.  `"environment"` is a no-op. -/
def parse (st : Parameters) (components : List String) (only_known : Bool)
    (file_path : Option String) : Parameters :=
  let st1 := if "cli" ∈ components then
    (if only_known then st else { st with parsed := some true }) else st
  if "file" ∈ components then reinitFiles st1 file_path else st1

/-- The state mutation performed by `Parameters.__init__(name, file_path,
parameters)` once the `assert(not getattr(self, "parsed", False))` guard has
passed, line by line:
update `self.defaults` with `extract_defaults(parameters, prefix)` where the
prefix is `name + "."` for a non-default group; tag each definition with its
group; extend `self.parameters` — the source appends only when the attribute
already exists and otherwise sets it to the *empty* list, so the first
construction discards its own definitions; the argparse surface built by
`_add_argument_parameters` has no observable shared-state effect (see module
docstring); then, if `file_path` is not yet a key of
`self._configuration_files` (the Python `None` never becomes a key, since
`reinitialize(None)` only re-reads existing paths), run
`self.parse(components = set with "file", file_path = file_path)`; the final
`self.parse(components = set with "environment")` is a no-op. -/
def initState (st : Parameters) (name : String) (file_path : Option String)
    (defs : List ParamDefIn) : Parameters :=
  let pfx := if name ≠ "default" then name ++ "." else ""
  let newDefaults := updateA st.defaults (extract_defaults defs pfx)
  let tagged := defs.map (tagGroup name)
  let newParams : List ParamDef :=
    match st.parameters with
    | some ps => ps ++ tagged
    | none => []
  let st1 : Parameters :=
    { st with defaults := newDefaults, parameters := some newParams }
  let fileSeen : Bool :=
    match file_path with
    | some p => decide (p ∈ st1.configuration_files)
    | none => false
  if fileSeen then st1 else parse st1 ["file"] false file_path

/-- Embedding of `Parameters.__init__`: the assertion
`assert(not getattr(self, "parsed", False))` — a guarded read, seeing
`False` when the attribute is absent — raises `AssertionError` when a
strict CLI parse has already run, and nothing is mutated in that case (the
assert precedes every assignment); otherwise the registration proceeds as
`initState`. -/
def init (st : Parameters) (name : String) (file_path : Option String)
    (defs : List ParamDefIn) : Except PyError Parameters :=
  if st.parsed.getD false then .error .assertionError
  else .ok (initState st name file_path defs)

/-- Embedding of `Parameters.iterkeys`: for each stored definition, yield
`item["options"][0][2:]`, prepending `item["group"]` — with no separator in
between — when the group is not `"default"`. -/
def iterkeys (ps : List ParamDef) : List String :=
  ps.map fun item =>
    let v := canonicalName item.options
    if item.group ≠ "default" then item.group ++ v else v

/-- Embedding of `Parameters.keys`: `list(self.iterkeys())`. -/
def keys (ps : List ParamDef) : List String :=
  iterkeys ps

/-- Split a character list at the first `'.'`: `none` when no dot occurs,
otherwise the characters before it and the (unsplit) remainder after it. -/
def splitCharsOnDot : List Char → Option (List Char × List Char)
  | [] => none
  | c :: rest =>
      if c = '.' then some ([], rest)
      else
        match splitCharsOnDot rest with
        | none => none
        | some (a, b) => some (c :: a, b)

/-- Python `key.split(".", 1)`: the part before the first dot, and — when a
dot occurs — the whole remainder after it. -/
def splitOnceOnDot (s : String) : String × Option String :=
  match splitCharsOnDot s.data with
  | none => (s, none)
  | some (a, b) => (String.mk a, some (String.mk b))

/-- The environment-variable name `"{0}_{1}_{2}".format(...)` built by
`__getitem__` when `key.split(".", 1)` did produce two parts. -/
def envVarName (argv0 g o : String) : String :=
  argv0.toUpper ++ "_" ++ g.toUpper ++ "_" ++ o.toUpper

/-- Attribute and method names visible on an `argparse.ArgumentParser`
instance, consulted by the `hasattr(self.argument_parser, argument_key)`
check in `__getitem__`.  Destinations of added arguments are *not* among
them: argparse stores parse results on a separate `Namespace` object, never
on the parser itself. -/
def argparseAttrs : List String :=
  ["prog", "usage", "description", "epilog", "formatter_class",
   "prefix_chars", "fromfile_prefix_chars", "argument_default",
   "conflict_handler", "add_help", "allow_abbrev",
   "parse_args", "parse_known_args", "add_argument", "add_argument_group",
   "add_mutually_exclusive_group", "add_subparsers", "format_usage",
   "format_help", "print_usage", "print_help", "exit", "error",
   "register", "set_defaults", "get_default"]

/-- The body of `Parameters.__getitem__` after the `key not in self` guard
has passed, line by line over the source:

1. `if not self.parsed:` reads the `parsed` attribute directly.  The
   attribute is created only by a strict CLI parse (`self.parsed = True`,
   line 203), so when none has run the read raises `AttributeError` right
   here; the branch body — the deferred-parsing warning and the implicit
   full `self.parse()` — exists in the source but is reachable only if the
   attribute held a falsy value, which no assignment ever produces.  The
   model mirrors the branch anyway (for `some false`), and it behaves as
   the source would: the implicit full parse sets `parsed` and re-reads the
   tracked files, leaving every other observable field unchanged.
2. `default = self.defaults[key]` when present (the `(default, only)`
   tuple recorded by `extract_defaults`), else the Python `None`.
3. `os.environ.get("{0}_{1}_{2}".format(sys.argv[0].upper(), *key.split(".", 1) upcased), default)`
   — the format string references positional argument 2, so when the key
   contains no dot (`split` yields one part, hence two format arguments in
   total) the format call raises `IndexError` before the environment is
   consulted.
4. `for configuration_file in self._configuration_files:` iterates the
   dictionary, yielding its *keys*, which are the path strings; the loop
   body calls `configuration_file.get(...)`, and `str` has no attribute
   `get`, so the first iteration raises `AttributeError`, which the
   `except (NoOptionError, NoSectionError)` clause does not catch.  With no
   tracked file the loop body never runs.
5. `argument_key = "-".join(key.split(".", 1))`; if
   `hasattr(self.argument_parser, argument_key)` then
   `getattr(self.arguments, argument_key)` — and `self.arguments` is never
   assigned anywhere in the source, so that branch raises
   `AttributeError`; otherwise the CLI step is skipped.
6. return `value`. -/
def resolveKnown (st : Parameters) (env : List (String × String))
    (argv0 key : String) : Except PyError (Parameters × PyVal) :=
  match st.parsed with
  | none => .error .attributeError
  | some b =>
  let st1 := if b then st else parse st ["cli", "file", "environment"] false none
  let dflt : PyVal :=
    match lookupA st1.defaults key with
    | some dv => PyVal.vtuple dv.1 dv.2
    | none => PyVal.vnone
  match splitOnceOnDot key with
  | (_, none) => .error .indexError
  | (g, some o) =>
      let value : PyVal :=
        match lookupA env (envVarName argv0 g o) with
        | some s => PyVal.vstr s
        | none => dflt
      match st1.configuration_files with
      | [] =>
          let argument_key := g ++ "-" ++ o
          if argument_key ∈ argparseAttrs then .error .attributeError
          else .ok (st1, value)
      | _ :: _ => .error .attributeError

/-- Embedding of `Parameters.__getitem__(key)`: `key not in self` (which
reads `self.parameters` through `iterkeys` — an absent attribute raises
`AttributeError`) raises `KeyError(key)`; a known key proceeds as
`resolveKnown`. -/
def getitem (st : Parameters) (env : List (String × String))
    (argv0 key : String) : Except PyError (Parameters × PyVal) :=
  match st.parameters with
  | none => .error .attributeError
  | some ps =>
      if key ∈ iterkeys ps then resolveKnown st env argv0 key
      else .error (.keyError key)

/-- Embedding of `Parameters.__contains__(key)`. -/
def containsKey (ps : List ParamDef) (key : String) : Bool :=
  decide (key ∈ iterkeys ps)

/-- The configuration paths baked into the module
(`CONFIGURATION_DIRECTORY` joins). -/
def CONFIGURATION_FILE : String := "/etc/margarine/margarine.conf"

/-- The default value of the logging-group `--configuration` option. -/
def LOGGING_CONF_FILE : String := "/etc/margarine/logging.conf"

/-- The definition registered at module import under the default group:
`options ["--configuration", "-f"]`, default `CONFIGURATION_FILE`. -/
def configurationDef : ParamDefIn :=
  { group := none
    options := ["--configuration", "-f"]
    default := some CONFIGURATION_FILE
    only := none
    help := some "Configuration file to use to configure the program as a whole." }

/-- The definition registered at module import under the `logging` group:
`options ["--configuration"]`, default the logging configuration path. -/
def loggingConfigurationDef : ParamDefIn :=
  { group := none
    options := ["--configuration"]
    default := some LOGGING_CONF_FILE
    only := none
    help := some "The configuration file containing the logging mechanism." }

/-- The shared state right after the module's own two import-time
registrations (`Parameters(parameters = [...])` then
`Parameters("logging", parameters = [...])`). -/
def bootState : Parameters :=
  initState (initState emptyState "default" none [configurationDef])
    "logging" none [loggingConfigurationDef]

/-- The spec's running example definition: default group, options
`["--example", "-e"]`, default `"foo"`. -/
def exampleDef : ParamDefIn :=
  ⟨none, ["--example", "-e"], some "foo", none, some "The help message!"⟩

/-- Re-registration of the example key with a different default. -/
def exampleDefBar : ParamDefIn :=
  ⟨none, ["--example", "-e"], some "bar", none, none⟩

/-- Shared state after the module bootstrap plus a user registration of the
example definition (no configuration file). -/
def exampleState : Parameters :=
  initState bootState "default" none [exampleDef]

/-- The stored definition list of `exampleState`, written out. -/
def exampleParams : List ParamDef :=
  [{ group := "logging", options := ["--configuration"],
     default := some LOGGING_CONF_FILE, only := none,
     help := some "The configuration file containing the logging mechanism." },
   { group := "default", options := ["--example", "-e"],
     default := some "foo", only := none, help := some "The help message!" }]

/-- A definition whose canonical option name contains a dot, so that the
derived key survives `key.split(".", 1)` and lookup reaches the
configuration-file loop. -/
def abDef : ParamDefIn := ⟨none, ["--a.b"], some "d", none, none⟩

/-- Shared state with two configuration files tracked (paths `f1` then
`f2`, in registration order) and the dotted-key definition registered. -/
def c4State : Parameters :=
  initState (initState bootState "default" (some "f1") [abDef])
    "default" (some "f2") []

/-- A plain user definition used for the pre-parse lookup scenario. -/
def verboseDef : ParamDefIn := ⟨none, ["--verbose"], some "false", none, none⟩

/-- Shared state for the pre-parse lookup scenario: nothing has been
parsed yet, so the `parsed` attribute is still absent. -/
def c8State : Parameters := initState bootState "default" none [verboseDef]

/-- A definition registered under a dotted group name. -/
def dottedDef : ParamDefIn := ⟨none, ["--x"], some "v", none, none⟩

/-- A definition used in the environment-over-file scenario. -/
def quietDef : ParamDefIn := ⟨none, ["--quiet"], some "no", none, none⟩

/-- `reinitialize` never touches the `parsed` flag. -/
theorem reinitFiles_parsed (st : Parameters) (fp : Option String) :
    (reinitFiles st fp).parsed = st.parsed := by
  cases fp <;> rfl

/-- A strict parse that includes the `"cli"` component creates the `parsed`
attribute holding `True`. -/
theorem parse_cli_sets_parsed (st : Parameters) (components : List String)
    (fp : Option String) (hc : "cli" ∈ components) :
    (parse st components false fp).parsed = some true := by
  unfold parse
  simp only [if_pos hc, Bool.false_eq_true, if_false]
  by_cases hf : "file" ∈ components
  · simp [hf, reinitFiles_parsed]
  · simp [hf]

/-- Once the containment guard has passed, no branch of the lookup body
constructs a `KeyError`: every outcome is a returned value, an
`IndexError`, or an `AttributeError`. -/
theorem resolveKnown_ne_keyError (st : Parameters) (env : List (String × String))
    (argv0 key k : String) :
    resolveKnown st env argv0 key ≠ Except.error (PyError.keyError k) := by
  unfold resolveKnown
  rcases hp : st.parsed with _ | b
  · simp [hp]
  · simp only [hp]
    rcases hsp : splitOnceOnDot key with ⟨g, o⟩
    cases o with
    | none => simp [hsp]
    | some o =>
        rcases hcf :
            (if b then st
              else parse st ["cli", "file", "environment"] false none).configuration_files
          with _ | ⟨p, rest⟩
        · simp only [hsp, hcf]
          split <;> simp
        · simp [hsp, hcf]

/-- Claim C5: lookup raises `KeyError` exactly on the keys outside the
known-key set that `iterkeys` derives from the stored definition list
(each definition contributing its group concatenated with its canonical
option name, bare for the default group); for every key in that set the
lookup never raises `KeyError` (its failures, when any, are of other
kinds). -/
theorem c5_keyerror_iff_unknown (st : Parameters) (env : List (String × String))
    (argv0 key : String) (ps : List ParamDef) (h : st.parameters = some ps) :
    getitem st env argv0 key = Except.error (PyError.keyError key) ↔
      key ∉ iterkeys ps := by
  unfold getitem
  rw [h]
  by_cases hk : key ∈ iterkeys ps
  · simp only [if_pos hk]
    constructor
    · intro he
      exact absurd he (resolveKnown_ne_keyError st env argv0 key key)
    · intro hn
      exact absurd hk hn
  · simp [if_neg hk, hk]

/-- Witness for C5 at a concrete state and key. -/
theorem c5_witness :
    exampleState.parameters = some exampleParams ∧
      (getitem exampleState [] "prog" "nosuch" =
          Except.error (PyError.keyError "nosuch") ↔
        "nosuch" ∉ iterkeys exampleParams) :=
  ⟨rfl, c5_keyerror_iff_unknown exampleState [] "prog" "nosuch" exampleParams rfl⟩

/-- Claim C6, counterexample: registering under the dotted group name
`"a.b"` does not fail — the construction succeeds and records the default
under the compound key `"a.b.x"`, so state *is* added for that group. -/
theorem c6_counterexample :
    (init bootState "a.b" none [dottedDef]).map
        (fun st => lookupA st.defaults "a.b.x") =
      Except.ok (some ("v", none)) := rfl

/-- Claim C6 as amended: a group name containing the separator `'.'` is
not validated anywhere in `Parameters.__init__` (the only assertion checks
the `parsed` flag via a guarded read); as long as no strict CLI parse has
run (the `parsed` attribute is absent or falsy), the registration succeeds
and its state is added under the `name + "."` prefix.  The no-dot
requirement is stated only in the constructor's docstring, as a caller
obligation. -/
theorem c6_dotted_group_accepted (st : Parameters) (name : String)
    (fp : Option String) (defs : List ParamDefIn)
    (hp : st.parsed.getD false = false) (_hd : '.' ∈ name.data) :
    init st name fp defs = Except.ok (initState st name fp defs) := by
  unfold init
  rw [hp]
  simp

/-- Witness for the amended C6 at a concrete dotted group name. -/
theorem c6_witness :
    bootState.parsed.getD false = false ∧ '.' ∈ "a.b".data ∧
      init bootState "a.b" none [dottedDef] =
        Except.ok (initState bootState "a.b" none [dottedDef]) :=
  ⟨rfl, by decide,
    c6_dotted_group_accepted bootState "a.b" none [dottedDef] rfl (by decide)⟩

/-- Claim C10: once a strict CLI parse has run (`parse` with `"cli"` among
the components and `only_known = False` sets the `parsed` flag), every
subsequent construction of `Parameters` fails the
`assert(not getattr(self, "parsed", False))` guard with `AssertionError`,
so no further definition, default, or CLI surface can be registered. -/
theorem c10_registration_fails_after_cli_parse (st : Parameters)
    (components : List String) (fp fp2 : Option String) (name : String)
    (defs : List ParamDefIn) (hc : "cli" ∈ components) :
    init (parse st components false fp) name fp2 defs =
      Except.error PyError.assertionError := by
  unfold init
  rw [parse_cli_sets_parsed st components fp hc]
  simp

/-- Witness for C10 at a concrete state and component set. -/
theorem c10_witness :
    "cli" ∈ ["cli"] ∧
      init (parse bootState ["cli"] false none) "x" none [] =
        Except.error PyError.assertionError :=
  ⟨by decide,
    c10_registration_fails_after_cli_parse bootState ["cli"] none none "x" []
      (by decide)⟩

/-- Claim C1 (code bug): in the spec's own precedence scenario — default
`"foo"` declared, a configuration file tracked, the environment variable
the spec predicts set to `"bar"`, the CLI parsed strictly with an override
supposedly present — lookup of the known key `"example"` raises
`IndexError` instead of returning the CLI value: the key contains no dot,
so `"{0}_{1}_{2}".format` receives only two positional arguments.  (A CLI
value could not be returned in any case: `parse` discards the
`parse_args` result and `self.arguments` is never assigned.  Before the
strict parse the lookup fails even earlier, with `AttributeError` at the
`if not self.parsed:` read.) -/
theorem c1_cli_precedence_unrealized :
    getitem
        (parse (initState bootState "default" (some "/etc/app.conf") [exampleDef])
          ["cli", "file", "environment"] false none)
        [("PROG_DEFAULT_EXAMPLE", "bar")] "prog" "example" =
      Except.error PyError.indexError := rfl

/-- Claim C2 (code bug): with the CLI parsed strictly but no CLI,
environment, or file value present, lookup of the known key `"example"`
(declared default `"foo"`) raises `IndexError` while formatting the
environment-variable name instead of returning the declared default.
(Before the strict parse the lookup fails even earlier, with
`AttributeError` at the `if not self.parsed:` read.) -/
theorem c2_default_lookup_raises :
    getitem (parse exampleState ["cli"] false none) [] "prog" "example" =
      Except.error PyError.indexError := rfl

/-- Claim C3 (code bug): with a configuration file tracked, the
environment variable the spec predicts set, and the CLI parsed strictly
with no override, lookup of the known key `"quiet"` raises `IndexError`
instead of returning the environment value `"yes"`.  (Before the strict
parse the lookup fails even earlier, with `AttributeError` at the
`if not self.parsed:` read.) -/
theorem c3_environment_lookup_raises :
    getitem
        (parse (initState bootState "default" (some "/etc/margarine/app.conf") [quietDef])
          ["cli"] false none)
        [("PROG_DEFAULT_QUIET", "yes")] "prog" "quiet" =
      Except.error PyError.indexError := rfl

/-- Claim C4 (code bug): with two configuration files tracked (`f1`
registered before `f2`) and a known key whose name contains a dot (so the
environment-name formatting succeeds), lookup raises `AttributeError` and
never returns the first file's value — before a strict CLI parse at the
`if not self.parsed:` read of the absent attribute, and after one at the
first loop iteration, since iterating `self._configuration_files` yields
the path strings and `str` has no `get`. -/
theorem c4_file_lookup_raises :
    getitem c4State [] "prog" "a.b" = Except.error PyError.attributeError ∧
      getitem (parse c4State ["cli"] false none) [] "prog" "a.b" =
        Except.error PyError.attributeError :=
  ⟨rfl, rfl⟩

/-- Claim C7 (code bug): after the module's own two import-time
registrations, `keys()` returns `["loggingconfiguration"]`: the first
registration's definition (default group, `configuration`) was discarded
by the `self.parameters = []` branch, and the surviving logging-group
entry is rendered without the `"."` separator between group and option
name. -/
theorem c7_keys_missing_separator :
    keys (bootState.parameters.getD []) = ["loggingconfiguration"] := rfl

/-- Claim C8 (code bug): looking up the known key `"verbose"` before any
explicit parse has run fails with `AttributeError`: the `parsed` attribute
does not exist yet, so the `if not self.parsed:` read at the top of the
resolution raises before the deferred-parsing warning or the implicit
parse — which are dead code — can run, and no resolved value is
returned. -/
theorem c8_unparsed_lookup_raises :
    c8State.parsed = none ∧
      getitem c8State [] "prog" "verbose" = Except.error PyError.attributeError :=
  ⟨rfl, rfl⟩

/-- Claim C9 (code bug): registering the same key twice from a fresh
shared state — defaults `"foo"` then `"bar"` — leaves the defaults mapping
holding the most recent default, but only *one* definition enumerable: the
first construction executes `self.parameters = []`, discarding its own
definitions instead of appending them. -/
theorem c9_first_registration_dropped :
    (init emptyState "default" none [exampleDef]).bind
        (fun st => init st "default" none [exampleDefBar]) =
      Except.ok
        { parsed := none
          defaults := [("example", ("bar", none))]
          parameters := some [{ group := "default", options := ["--example", "-e"],
                                default := some "bar", only := none, help := none }]
          configuration_files := [] } := rfl

end Margarine
